import Mathlib

/-!
# Verification of feature-view.py (peak-classifier repository)

A shallow embedding of `src/feature-view.py`, a script that reads a BED
file and renders a horizontal bar chart of the features it describes.

The embedding models:
* Python `str.split()` (split on whitespace runs, dropping empty tokens);
* Python `int()` applied to a whitespace-free token (optional sign, then
  digits with single underscores allowed between digits, per the Python 3
  integer-literal grammar accepted by `int`);
* the BED read loop at lines 33-42, including the exact append order
  (`features.append(a[3])` before the integer conversions) and the fact
  that `f.close()` at line 42 only executes when the loop finishes
  without an exception;
* the matplotlib call sequence at lines 47-55 as a record of the
  arguments passed to the plotting library;
* the overall control flow: argument gate (lines 26-28), file open
  (line 33), read loop, chart rendering.
-/

namespace FeatureView

/-- Python 3 `int()` digit-part grammar, continuation after the first digit:
`(["_"] digit)*`. An underscore must be followed by a digit. -/
def moreDigits : List Char → Bool
  | [] => true
  | '_' :: c :: rest => c.isDigit && moreDigits rest
  | c :: rest => c.isDigit && moreDigits rest

/-- Python 3 `int()` digit-part grammar: `digit (["_"] digit)*`. -/
def digitsOk : List Char → Bool
  | [] => false
  | c :: rest => c.isDigit && moreDigits rest

/-- Numeric value of a digit string, skipping underscores. -/
def digitsVal (l : List Char) : Nat :=
  l.foldl (fun acc c => if c == '_' then acc else acc * 10 + (c.toNat - 48)) 0

/-- Parse an unsigned digit part, as `int()` does after stripping a sign. -/
def pyIntCore (l : List Char) : Option Int :=
  if digitsOk l then some (Int.ofNat (digitsVal l)) else none

/-- Model of Python `int(s)` on a token produced by `str.split()` (such a
token contains no whitespace, so no surrounding-whitespace stripping is
needed): an optional `+`/`-` sign followed by a digit part. Returns `none`
when `int()` would raise `ValueError`. -/
def pyInt (s : String) : Option Int :=
  match s.toList with
  | '+' :: rest => pyIntCore rest
  | '-' :: rest => (pyIntCore rest).map (fun n => -n)
  | l => pyIntCore l

/-- Worker for `pySplit`: the accumulator holds the current in-progress
token (reversed) when one is open. -/
def splitRun : Option (List Char) → List Char → List String
  | none, [] => []
  | some acc, [] => [String.mk acc.reverse]
  | none, c :: rest =>
      if c.isWhitespace then splitRun none rest
      else splitRun (some [c]) rest
  | some acc, c :: rest =>
      if c.isWhitespace then String.mk acc.reverse :: splitRun none rest
      else splitRun (some (c :: acc)) rest

/-- Model of Python `line.split()` with no arguments: split on runs of
whitespace, discarding leading/trailing whitespace and empty tokens. -/
def pySplit (s : String) : List String :=
  splitRun none s.toList

/-- The two ways the read loop can raise: `a[3]` on a short line
(`IndexError`) or `int()` on a non-integer field (`ValueError`). -/
inductive PyErr where
  | indexError
  | valueError
deriving Repr, DecidableEq

/-- The three parallel lists built by the read loop (lines 34-36):
`features`, `lengths`, `fstarts`. -/
structure LoaderState where
  features : List String
  lengths : List Int
  fstarts : List Int
deriving Repr, DecidableEq

/-- `features=[]; lengths=[]; fstarts=[]` (lines 34-36). -/
def initState : LoaderState := ⟨[], [], []⟩

/-- One iteration of the read loop (lines 37-41):
`a=line.split(); features.append(a[3]);
lengths.append(int(a[2])-int(a[1])); fstarts.append(int(a[1]))`.
Returns the state after the iteration together with the exception, if
any, that aborted it.  Note `features.append(a[3])` happens before the
integer conversions, so a line with four fields but a bad integer still
gets its name appended. -/
def processLine (st : LoaderState) (line : String) : LoaderState × Option PyErr :=
  match pySplit line with
  | _chrom :: f1 :: f2 :: name :: _rest =>
      let st1 : LoaderState := { st with features := st.features ++ [name] }
      match pyInt f2, pyInt f1 with
      | some e, some s =>
          ({ st1 with lengths := st1.lengths ++ [e - s],
                      fstarts := st1.fstarts ++ [s] }, none)
      | _, _ => (st1, some PyErr.valueError)
  | _ => (st, some PyErr.indexError)

/-- The `for line in f.readlines():` loop (lines 37-41): the first
exception aborts the remaining iterations. -/
def runLoop (st : LoaderState) : List String → LoaderState × Option PyErr
  | [] => (st, none)
  | l :: ls =>
      match processLine st l with
      | (st1, none) => runLoop st1 ls
      | (st1, some e) => (st1, some e)

/-- Result of the whole load phase (lines 33-42): the final (possibly
partial) state, the exception if one was raised, and whether the explicit
`f.close()` at line 42 executed. -/
structure LoadResult where
  state : LoaderState
  err : Option PyErr
  closed : Bool
deriving Repr, DecidableEq

/-- Lines 33-42 given the file's lines: run the loop from empty lists;
`f.close()` (line 42) runs only when the loop finished without raising —
the script uses plain `open`/`close` with no `with` or `try`/`finally`,
so an exception in the loop skips the close. -/
def loadFeatures (lines : List String) : LoadResult :=
  match runLoop initState lines with
  | (st, none) => ⟨st, none, true⟩
  | (st, some e) => ⟨st, some e, false⟩

/-- The arguments the script passes to matplotlib (lines 47-55), recorded
as data: `ax.barh(y_pos, lengths, 0.3, left=fstarts, align='center')`,
`ax.set_yticks(y_pos)`, `ax.set_yticklabels(features)`,
`ax.invert_yaxis()`, `ax.set_xlabel('Position')`,
`ax.set_title('Gene subfeatures')`. -/
structure Chart where
  y_pos : List Nat
  widths : List Int
  height : ℚ
  lefts : List Int
  align : String
  yticks : List Nat
  yticklabels : List String
  yaxisInverted : Bool
  xlabel : String
  title : String
deriving Repr, DecidableEq

/-- Lines 47-55: build the chart from the three parallel lists.
`y_pos = numpy.arange(len(features))` is `[0, ..., N-1]`. -/
def renderChart (features : List String) (lengths fstarts : List Int) : Chart :=
  let y_pos := List.range features.length
  { y_pos := y_pos
    widths := lengths
    height := 3 / 10
    lefts := fstarts
    align := "center"
    yticks := y_pos
    yticklabels := features
    yaxisInverted := true
    xlabel := "Position"
    title := "Gene subfeatures" }

/-- The exact string passed to `sys.exit` at line 27.  Note it is a plain
string literal: the text `sys.argv[0]` is NOT interpolated, so the
program's name never appears in the message. -/
def usageMessage : String := "Usage: sys.argv[0] bed-file\n"

/-- Observable outcome of one invocation.  `usageExit msg` models
`sys.exit(msg)`: the message is printed to standard error and the process
exits with status 1 (non-zero).  `openError` models an unhandled
exception from `open` (missing/unreadable file, non-zero exit).
`parseAbort` models an unhandled exception inside the read loop (non-zero
exit, no chart); it records the partial loader state and whether
`f.close()` ran.  `rendered` means the chart was built and shown. -/
inductive ProgResult where
  | usageExit (msg : String)
  | openError
  | parseAbort (st : LoaderState) (e : PyErr) (closed : Bool)
  | rendered (c : Chart) (closed : Bool)
deriving Repr, DecidableEq

/-- The whole script, from `sys.argv` and a model of the file system
(`fs path = some lines` when `open(path)` succeeds and `readlines()`
yields `lines`; `none` when `open` raises).  Lines 26-28: exit with the
usage message unless `len(sys.argv) == 2`; then open, load, render. -/
def runProgram (argv : List String) (fs : String → Option (List String)) : ProgResult :=
  if argv.length ≠ 2 then ProgResult.usageExit usageMessage
  else
    match fs (argv.getD 1 "") with
    | none => ProgResult.openError
    | some lines =>
        let r := loadFeatures lines
        match r.err with
        | some e => ProgResult.parseAbort r.state e r.closed
        | none =>
            ProgResult.rendered
              (renderChart r.state.features r.state.lengths r.state.fstarts)
              r.closed

/-- A line is well-formed for the loop when `line.split()` has at least 4
fields and fields 1 and 2 (0-based) parse as integers. -/
def wellFormed (line : String) : Bool :=
  match pySplit line with
  | _ :: f1 :: f2 :: _ :: _ => (pyInt f1).isSome && (pyInt f2).isSome
  | _ => false

/-- The 4th whitespace-delimited field of a line (`a[3]`). -/
def parsedName (line : String) : String := (pySplit line).getD 3 ""

/-- The integer parsed from the 2nd field (`int(a[1])`), on well-formed lines. -/
def parsedStart (line : String) : Int := (pyInt ((pySplit line).getD 1 "")).getD 0

/-- The integer parsed from the 3rd field (`int(a[2])`), on well-formed lines. -/
def parsedEnd (line : String) : Int := (pyInt ((pySplit line).getD 2 "")).getD 0

/-- On an ill-formed line, the name appended before the failure (empty when
`a[3]` itself raises, the 4th field when the `int()` conversion raises). -/
def badName (line : String) : List String :=
  match pySplit line with
  | _ :: _ :: _ :: n :: _ => [n]
  | _ => []

/-- The exception an ill-formed line raises: `ValueError` from `int()` when
the line has at least 4 fields, `IndexError` from `a[3]` otherwise. -/
def badErr (line : String) : PyErr :=
  match pySplit line with
  | _ :: _ :: _ :: _ :: _ => PyErr.valueError
  | _ => PyErr.indexError

/-- `startsWithL needle hay`: `needle` is a prefix of `hay`. -/
def startsWithL : List Char → List Char → Bool
  | [], _ => true
  | _ :: _, [] => false
  | a :: as, b :: bs => a == b && startsWithL as bs

/-- `hasSub needle hay`: `needle` occurs as a contiguous substring of
`hay`. Used to state whether one string contains another. -/
def hasSub (needle : List Char) : List Char → Bool
  | [] => startsWithL needle []
  | c :: rest => startsWithL needle (c :: rest) || hasSub needle rest

theorem processLine_ok (st : LoaderState) (line : String) (h : wellFormed line = true) :
    processLine st line =
      ({ features := st.features ++ [parsedName line],
         lengths := st.lengths ++ [parsedEnd line - parsedStart line],
         fstarts := st.fstarts ++ [parsedStart line] }, none) := by
  rcases hs : pySplit line with _ | ⟨c0, _ | ⟨f1, _ | ⟨f2, _ | ⟨n, rest⟩⟩⟩⟩
  · simp [wellFormed, hs] at h
  · simp [wellFormed, hs] at h
  · simp [wellFormed, hs] at h
  · simp [wellFormed, hs] at h
  · rcases h1 : pyInt f1 with _ | s
    · simp [wellFormed, hs, h1] at h
    · rcases h2 : pyInt f2 with _ | e
      · simp [wellFormed, hs, h1, h2] at h
      · simp [processLine, parsedName, parsedStart, parsedEnd, hs, h1, h2,
          List.getD_cons_zero, List.getD_cons_succ]

theorem processLine_bad (st : LoaderState) (line : String) (h : wellFormed line = false) :
    processLine st line =
      ({ st with features := st.features ++ badName line }, some (badErr line)) := by
  rcases hs : pySplit line with _ | ⟨c0, _ | ⟨f1, _ | ⟨f2, _ | ⟨n, rest⟩⟩⟩⟩
  · simp [processLine, badName, badErr, hs]
  · simp [processLine, badName, badErr, hs]
  · simp [processLine, badName, badErr, hs]
  · simp [processLine, badName, badErr, hs]
  · rcases h1 : pyInt f1 with _ | s
    · simp [processLine, badName, badErr, hs, h1]
    · rcases h2 : pyInt f2 with _ | e
      · simp [processLine, badName, badErr, hs, h1, h2]
      · simp [wellFormed, hs, h1, h2] at h

theorem runLoop_ok (lines : List String) (h : lines.all wellFormed = true)
    (st : LoaderState) :
    runLoop st lines =
      ({ features := st.features ++ lines.map parsedName,
         lengths := st.lengths ++ lines.map (fun l => parsedEnd l - parsedStart l),
         fstarts := st.fstarts ++ lines.map parsedStart }, none) := by
  induction lines generalizing st with
  | nil => simp [runLoop]
  | cons l ls ih =>
      simp only [List.all_cons, Bool.and_eq_true] at h
      obtain ⟨h1, h2⟩ := h
      simp only [runLoop, processLine_ok st l h1]
      rw [ih h2]
      simp

theorem runLoop_bad (good : List String) (b : String) (rest : List String)
    (hg : good.all wellFormed = true) (hb : wellFormed b = false)
    (st : LoaderState) :
    runLoop st (good ++ b :: rest) =
      ({ features := st.features ++ good.map parsedName ++ badName b,
         lengths := st.lengths ++ good.map (fun l => parsedEnd l - parsedStart l),
         fstarts := st.fstarts ++ good.map parsedStart }, some (badErr b)) := by
  induction good generalizing st with
  | nil =>
      rw [List.nil_append]
      simp only [runLoop, processLine_bad st b hb]
      simp
  | cons l ls ih =>
      simp only [List.all_cons, Bool.and_eq_true] at hg
      obtain ⟨h1, h2⟩ := hg
      rw [List.cons_append]
      simp only [runLoop, processLine_ok st l h1]
      rw [ih h2]
      simp

theorem loadFeatures_ok (lines : List String) (h : lines.all wellFormed = true) :
    loadFeatures lines =
      ⟨⟨lines.map parsedName, lines.map (fun l => parsedEnd l - parsedStart l),
        lines.map parsedStart⟩, none, true⟩ := by
  unfold loadFeatures
  rw [runLoop_ok lines h initState]
  simp [initState]

theorem loadFeatures_bad (good : List String) (b : String) (rest : List String)
    (hg : good.all wellFormed = true) (hb : wellFormed b = false) :
    loadFeatures (good ++ b :: rest) =
      ⟨⟨good.map parsedName ++ badName b,
        good.map (fun l => parsedEnd l - parsedStart l),
        good.map parsedStart⟩, some (badErr b), false⟩ := by
  unfold loadFeatures
  rw [runLoop_bad good b rest hg hb initState]
  simp [initState]

/-- A list of lines that is not all well-formed splits at its first
ill-formed line. -/
theorem exists_first_bad (lines : List String) (h : lines.all wellFormed = false) :
    ∃ good b rest, lines = good ++ b :: rest ∧
      good.all wellFormed = true ∧ wellFormed b = false := by
  induction lines with
  | nil => simp [List.all_nil] at h
  | cons l ls ih =>
      rcases hl : wellFormed l with _ | _
      · exact ⟨[], l, ls, rfl, rfl, hl⟩
      · rw [List.all_cons, hl, Bool.true_and] at h
        obtain ⟨good, b, rest, hsplit, hg, hb⟩ := ih h
        exact ⟨l :: good, b, rest, by rw [hsplit, List.cons_append],
          by simp [List.all_cons, hl, hg], hb⟩

/-- `f.close()` at line 42 runs exactly when every line is well-formed. -/
theorem loadFeatures_closed (lines : List String) :
    (loadFeatures lines).closed = lines.all wellFormed := by
  rcases hall : lines.all wellFormed with _ | _
  · obtain ⟨good, b, rest, hsplit, hg, hb⟩ := exists_first_bad lines hall
    rw [hsplit, loadFeatures_bad good b rest hg hb]
  · rw [loadFeatures_ok lines hall]

/-- An ill-formed line with at least 4 fields still contributes its 4th
field as a name, and the exception it raises is `ValueError`. -/
theorem bad_long (b : String) (h4 : 4 ≤ (pySplit b).length) :
    badName b = [parsedName b] ∧ badErr b = PyErr.valueError := by
  rcases hs : pySplit b with _ | ⟨c0, _ | ⟨f1, _ | ⟨f2, _ | ⟨n, rest⟩⟩⟩⟩
  · simp [hs] at h4
  · simp [hs] at h4
  · simp [hs] at h4
  · simp [hs] at h4
  · exact ⟨by simp [badName, parsedName, hs], by simp [badErr, hs]⟩

/-- C1: for every well-formed input file and every line `i`, the loader
appends the line's 4th whitespace-delimited field to the name sequence,
the integer value of the 2nd field to the start sequence, and the
difference (3rd field) − (2nd field) to the length sequence, so
`length[i] = end[i] - start[i]` exactly. -/
theorem C1_loader_per_line (lines : List String) (h : lines.all wellFormed = true)
    (i : Nat) (hi : i < lines.length) :
    (loadFeatures lines).state.features[i]? = some (parsedName lines[i]) ∧
    (loadFeatures lines).state.fstarts[i]? = some (parsedStart lines[i]) ∧
    (loadFeatures lines).state.lengths[i]? =
      some (parsedEnd lines[i] - parsedStart lines[i]) := by
  rw [loadFeatures_ok lines h]
  refine ⟨?_, ?_, ?_⟩ <;>
    simp [List.getElem?_map, List.getElem?_eq_getElem hi]

/-- C1 witness at a concrete two-line file. -/
theorem C1_loader_per_line_witness :
    (loadFeatures ["chr1 10 20 a", "chr1 30 45 b"]).state.features[1]? =
      some (parsedName "chr1 30 45 b") ∧
    (loadFeatures ["chr1 10 20 a", "chr1 30 45 b"]).state.fstarts[1]? =
      some (parsedStart "chr1 30 45 b") ∧
    (loadFeatures ["chr1 10 20 a", "chr1 30 45 b"]).state.lengths[1]? =
      some (parsedEnd "chr1 30 45 b" - parsedStart "chr1 30 45 b") :=
  C1_loader_per_line ["chr1 10 20 a", "chr1 30 45 b"] (by decide) 1 (by decide)

/-- C2: for every well-formed input file with N lines, the loader
produces three sequences each of length N, index-aligned and in input
line order (each sequence is the per-line parse mapped over the lines in
order, with no reordering, filtering, or sorting). -/
theorem C2_lockstep (lines : List String) (h : lines.all wellFormed = true) :
    (loadFeatures lines).state.features.length = lines.length ∧
    (loadFeatures lines).state.lengths.length = lines.length ∧
    (loadFeatures lines).state.fstarts.length = lines.length ∧
    (loadFeatures lines).state.features = lines.map parsedName ∧
    (loadFeatures lines).state.lengths =
      lines.map (fun l => parsedEnd l - parsedStart l) ∧
    (loadFeatures lines).state.fstarts = lines.map parsedStart := by
  rw [loadFeatures_ok lines h]
  simp

/-- C2 witness at a concrete two-line file. -/
theorem C2_lockstep_witness :
    (loadFeatures ["chr1 10 20 a", "chr1 30 45 b"]).state.features.length =
      (["chr1 10 20 a", "chr1 30 45 b"] : List String).length ∧
    (loadFeatures ["chr1 10 20 a", "chr1 30 45 b"]).state.lengths.length =
      (["chr1 10 20 a", "chr1 30 45 b"] : List String).length ∧
    (loadFeatures ["chr1 10 20 a", "chr1 30 45 b"]).state.fstarts.length =
      (["chr1 10 20 a", "chr1 30 45 b"] : List String).length ∧
    (loadFeatures ["chr1 10 20 a", "chr1 30 45 b"]).state.features =
      ["chr1 10 20 a", "chr1 30 45 b"].map parsedName ∧
    (loadFeatures ["chr1 10 20 a", "chr1 30 45 b"]).state.lengths =
      ["chr1 10 20 a", "chr1 30 45 b"].map (fun l => parsedEnd l - parsedStart l) ∧
    (loadFeatures ["chr1 10 20 a", "chr1 30 45 b"]).state.fstarts =
      ["chr1 10 20 a", "chr1 30 45 b"].map parsedStart :=
  C2_lockstep ["chr1 10 20 a", "chr1 30 45 b"] (by decide)

/-- C3 (code bug): invoked with a wrong argument count, the program does
exit via `sys.exit` printing the usage message to standard error with a
non-zero status, but the message is the literal string
`"Usage: sys.argv[0] bed-file\n"` — the token `sys.argv[0]` is not
interpolated, so the message does not contain the program's name. -/
theorem C3_usage_message_literal :
    runProgram ["feature-view.py"] (fun _ => none) =
      ProgResult.usageExit "Usage: sys.argv[0] bed-file\n" ∧
    hasSub "feature-view.py".toList "Usage: sys.argv[0] bed-file\n".toList = false := by
  decide

/-- C4: a file containing an ill-formed line (fewer than 4
whitespace-separated fields, or a non-integer 2nd or 3rd field) makes the
loader raise at the first such line: the final state holds only data from
the lines before it (plus, possibly, the offending line's name), the
remaining lines are never parsed, and the render stage is never
reached. -/
theorem C4_malformed_aborts (prog path : String)
    (fs : String → Option (List String)) (lines : List String)
    (hfs : fs path = some lines) (hbad : lines.all wellFormed = false) :
    ∃ good b rest, lines = good ++ b :: rest ∧
      good.all wellFormed = true ∧ wellFormed b = false ∧
      runProgram [prog, path] fs =
        ProgResult.parseAbort
          ⟨good.map parsedName ++ badName b,
           good.map (fun l => parsedEnd l - parsedStart l),
           good.map parsedStart⟩ (badErr b) false := by
  obtain ⟨good, b, rest, hsplit, hg, hb⟩ := exists_first_bad lines hbad
  subst hsplit
  refine ⟨good, b, rest, rfl, hg, hb, ?_⟩
  simp [runProgram, hfs, loadFeatures_bad good b rest hg hb]

/-- C4 witness: a file whose second line has only two fields. -/
theorem C4_malformed_aborts_witness :
    ∃ good b rest,
      (["chr1 10 20 a", "chr1 10", "chr1 1 2 z"] : List String) = good ++ b :: rest ∧
      good.all wellFormed = true ∧ wellFormed b = false ∧
      runProgram ["feature-view.py", "genes.bed"]
          (fun _ => some ["chr1 10 20 a", "chr1 10", "chr1 1 2 z"]) =
        ProgResult.parseAbort
          ⟨good.map parsedName ++ badName b,
           good.map (fun l => parsedEnd l - parsedStart l),
           good.map parsedStart⟩ (badErr b) false :=
  C4_malformed_aborts "feature-view.py" "genes.bed" _
    ["chr1 10 20 a", "chr1 10", "chr1 1 2 z"] rfl (by decide)

/-- C5: on a successful run the renderer receives y-positions `0..N-1`
in sequence order, bar widths equal to the length sequence, horizontal
offsets equal to the start sequence, fixed thickness `0.3`, centered
alignment; the y-tick labels are the names in the same index order, the
y-axis is inverted, the x-axis label is "Position" and the title is
"Gene subfeatures". -/
theorem C5_render_arguments (prog path : String)
    (fs : String → Option (List String)) (lines : List String)
    (hfs : fs path = some lines) (h : lines.all wellFormed = true) :
    runProgram [prog, path] fs =
      ProgResult.rendered
        { y_pos := List.range lines.length
          widths := lines.map (fun l => parsedEnd l - parsedStart l)
          height := 3 / 10
          lefts := lines.map parsedStart
          align := "center"
          yticks := List.range lines.length
          yticklabels := lines.map parsedName
          yaxisInverted := true
          xlabel := "Position"
          title := "Gene subfeatures" } true := by
  simp [runProgram, hfs, loadFeatures_ok lines h, renderChart]

/-- C5 witness at a concrete one-line file. -/
theorem C5_render_arguments_witness :
    runProgram ["feature-view.py", "genes.bed"] (fun _ => some ["chr1 100 150 exon1"]) =
      ProgResult.rendered
        { y_pos := List.range (["chr1 100 150 exon1"] : List String).length
          widths := ["chr1 100 150 exon1"].map (fun l => parsedEnd l - parsedStart l)
          height := 3 / 10
          lefts := ["chr1 100 150 exon1"].map parsedStart
          align := "center"
          yticks := List.range (["chr1 100 150 exon1"] : List String).length
          yticklabels := ["chr1 100 150 exon1"].map parsedName
          yaxisInverted := true
          xlabel := "Position"
          title := "Gene subfeatures" } true :=
  C5_render_arguments "feature-view.py" "genes.bed" _ ["chr1 100 150 exon1"]
    rfl (by decide)

/-- C6: with zero or two-or-more extra arguments the usage-error path is
taken, and the result does not depend on the file system at all: the
file-open operation and all subsequent file I/O are unreachable. -/
theorem C6_gate_no_io (argv : List String) (h : argv.length ≠ 2)
    (fs fs2 : String → Option (List String)) :
    runProgram argv fs = ProgResult.usageExit usageMessage ∧
    runProgram argv fs = runProgram argv fs2 := by
  unfold runProgram
  rw [if_pos h, if_pos h]
  exact ⟨rfl, rfl⟩

/-- C6 witness: zero extra arguments, two unrelated file systems. -/
theorem C6_gate_no_io_witness :
    runProgram ["feature-view.py"] (fun _ => none) =
      ProgResult.usageExit usageMessage ∧
    runProgram ["feature-view.py"] (fun _ => none) =
      runProgram ["feature-view.py"] (fun _ => some ["chr1 10 20 a"]) :=
  C6_gate_no_io ["feature-view.py"] (by decide) (fun _ => none)
    (fun _ => some ["chr1 10 20 a"])

/-- C7 counterexample: on a file whose single line has fewer than 4
fields, the parse aborts and the explicit `f.close()` is NOT executed
(the `closed` flag of the result is `false`), refuting the claim that the
handle is released on every path including malformed-line aborts. -/
theorem C7_counterexample :
    runProgram ["feature-view.py", "genes.bed"] (fun _ => some ["chr1 10"]) =
      ProgResult.parseAbort ⟨[], [], []⟩ PyErr.indexError false := by
  decide

/-- C7 amended: the explicit `f.close()` executes exactly when every line
is well-formed; in particular, on every invocation that reads the whole
file without a parse failure the handle is closed after the full read and
before the Chart Renderer runs, while a malformed-line abort skips the
explicit close. -/
theorem C7_close_on_success_only (lines : List String) (prog path : String)
    (fs : String → Option (List String)) (hfs : fs path = some lines) :
    (loadFeatures lines).closed = lines.all wellFormed ∧
    (lines.all wellFormed = true →
      runProgram [prog, path] fs =
        ProgResult.rendered
          (renderChart (lines.map parsedName)
            (lines.map fun l => parsedEnd l - parsedStart l)
            (lines.map parsedStart)) true) := by
  refine ⟨loadFeatures_closed lines, fun h => ?_⟩
  simp [runProgram, hfs, loadFeatures_ok lines h]

/-- C7 amended-claim witness at a concrete well-formed file. -/
theorem C7_close_on_success_only_witness :
    (loadFeatures ["chr1 100 150 exon1"]).closed =
      (["chr1 100 150 exon1"] : List String).all wellFormed ∧
    ((["chr1 100 150 exon1"] : List String).all wellFormed = true →
      runProgram ["feature-view.py", "genes.bed"] (fun _ => some ["chr1 100 150 exon1"]) =
        ProgResult.rendered
          (renderChart (["chr1 100 150 exon1"].map parsedName)
            (["chr1 100 150 exon1"].map fun l => parsedEnd l - parsedStart l)
            (["chr1 100 150 exon1"].map parsedStart)) true) :=
  C7_close_on_success_only ["chr1 100 150 exon1"] "feature-view.py" "genes.bed" _ rfl

/-- C8 counterexample: the line `chr1 -5 -2 x` is accepted by the loader
(no error) with parsed start `-5` and parsed end `-2`, both negative,
refuting the claim that accepted start and end values are `≥ 0`. -/
theorem C8_counterexample :
    (loadFeatures ["chr1 -5 -2 x"]).err = none ∧
    (loadFeatures ["chr1 -5 -2 x"]).state.fstarts = [-5] ∧
    parsedEnd "chr1 -5 -2 x" = -2 ∧
    ¬((-5 : Int) ≥ 0) ∧ ¬((-2 : Int) ≥ 0) := by
  decide

/-- C8 amended: for every feature accepted by the loader, the start and
end are exactly the integers `int()` parses from the 2nd and 3rd fields,
with no sign or range constraint enforced (negative values are accepted
like any others). -/
theorem C8_any_integer_accepted (lines : List String)
    (h : lines.all wellFormed = true) :
    (loadFeatures lines).err = none ∧
    (loadFeatures lines).state.fstarts = lines.map parsedStart ∧
    (loadFeatures lines).state.lengths =
      lines.map (fun l => parsedEnd l - parsedStart l) := by
  rw [loadFeatures_ok lines h]
  exact ⟨rfl, rfl, rfl⟩

/-- C8 amended-claim witness: a file with negative start and end is
loaded successfully. -/
theorem C8_any_integer_accepted_witness :
    (loadFeatures ["chr1 -5 -2 x"]).err = none ∧
    (loadFeatures ["chr1 -5 -2 x"]).state.fstarts =
      ["chr1 -5 -2 x"].map parsedStart ∧
    (loadFeatures ["chr1 -5 -2 x"]).state.lengths =
      ["chr1 -5 -2 x"].map (fun l => parsedEnd l - parsedStart l) :=
  C8_any_integer_accepted ["chr1 -5 -2 x"] (by decide)

/-- C9: an empty input file yields three empty sequences and a chart with
zero bars and no labels, without any failure (the close runs and the
renderer is reached). -/
theorem C9_empty_file (prog path : String) (fs : String → Option (List String))
    (hfs : fs path = some []) :
    loadFeatures [] = ⟨⟨[], [], []⟩, none, true⟩ ∧
    runProgram [prog, path] fs =
      ProgResult.rendered
        ⟨[], [], 3 / 10, [], "center", [], [], true, "Position", "Gene subfeatures"⟩
        true := by
  refine ⟨rfl, ?_⟩
  simp [runProgram, hfs, loadFeatures, runLoop, initState, renderChart]

/-- C9 witness with a concrete file system mapping the path to an empty
line list. -/
theorem C9_empty_file_witness :
    loadFeatures [] = ⟨⟨[], [], []⟩, none, true⟩ ∧
    runProgram ["feature-view.py", "genes.bed"] (fun _ => some []) =
      ProgResult.rendered
        ⟨[], [], 3 / 10, [], "center", [], [], true, "Position", "Gene subfeatures"⟩
        true :=
  C9_empty_file "feature-view.py" "genes.bed" _ rfl

/-- C10: when the first ill-formed line has at least 4 fields but a
non-integer 2nd or 3rd field, its name is appended before the failing
`int()` conversion: in the aborted state the name sequence is exactly one
element longer than the length and start sequences — per-line loading is
not atomic and the lock-step invariant does not hold there. -/
theorem C10_name_appended_before_failure (good : List String) (b : String)
    (rest : List String) (hg : good.all wellFormed = true)
    (hb : wellFormed b = false) (h4 : 4 ≤ (pySplit b).length) :
    (loadFeatures (good ++ b :: rest)).err = some PyErr.valueError ∧
    (loadFeatures (good ++ b :: rest)).state.features.length =
      (loadFeatures (good ++ b :: rest)).state.lengths.length + 1 ∧
    (loadFeatures (good ++ b :: rest)).state.fstarts.length =
      (loadFeatures (good ++ b :: rest)).state.lengths.length ∧
    (loadFeatures (good ++ b :: rest)).state.features =
      good.map parsedName ++ [parsedName b] := by
  obtain ⟨hn, he⟩ := bad_long b h4
  rw [loadFeatures_bad good b rest hg hb, hn, he]
  simp

/-- C10 witness: second line has 4 fields but a non-integer 3rd field. -/
theorem C10_name_appended_before_failure_witness :
    (loadFeatures (["chr1 10 20 a"] ++ "chr1 5 xx nm" :: ["chr2 1 2 z"])).err =
      some PyErr.valueError ∧
    (loadFeatures (["chr1 10 20 a"] ++ "chr1 5 xx nm" :: ["chr2 1 2 z"])).state.features.length =
      (loadFeatures (["chr1 10 20 a"] ++ "chr1 5 xx nm" :: ["chr2 1 2 z"])).state.lengths.length + 1 ∧
    (loadFeatures (["chr1 10 20 a"] ++ "chr1 5 xx nm" :: ["chr2 1 2 z"])).state.fstarts.length =
      (loadFeatures (["chr1 10 20 a"] ++ "chr1 5 xx nm" :: ["chr2 1 2 z"])).state.lengths.length ∧
    (loadFeatures (["chr1 10 20 a"] ++ "chr1 5 xx nm" :: ["chr2 1 2 z"])).state.features =
      ["chr1 10 20 a"].map parsedName ++ [parsedName "chr1 5 xx nm"] :=
  C10_name_appended_before_failure ["chr1 10 20 a"] "chr1 5 xx nm" ["chr2 1 2 z"]
    (by decide) (by decide) (by decide)

end FeatureView
